import Mathlib

/-
Shallow embedding of the constraint-compilation and solve-orchestration
engine of `workflow/scripts/solve_network.py` (pypsa-usa), together with
theorems settling the frozen claims about it.

Pandas tables are embedded as Lists of row structures, pandas boolean-mask
filters as List.filter, and the constraints registered with the linopy backend as
explicit records of (name, linear lhs over named decision variables, sense,
rational rhs).  Python string operations used by the source (`in`,
`.lower()`, `.strip()`, `.split(",")`, `.startswith`, `.endswith`,
`.unique()`) are re-implemented over character lists so that every
definition is executable by the kernel.
-/

namespace PypsaUsa

/-- Python helper: character-list version of "is a prefix of". -/
def isPrefixList : List Char → List Char → Bool
  | [], _ => true
  | _ :: _, [] => false
  | a :: as, b :: bs => a == b && isPrefixList as bs

/-- Python helper: does the needle occur as a contiguous run inside the hay
(the semantics of the Python expression needle in hay on strings). -/
def containsList (needle : List Char) : List Char → Bool
  | [] => needle.isEmpty
  | b :: bs => isPrefixList needle (b :: bs) || containsList needle bs

/-- Python string containment: needle in hay. -/
def pyIn (needle hay : String) : Bool := containsList needle.data hay.data

/-- Python str.lower (ASCII, as used on interconnect names in the source). -/
def pyLower (s : String) : String := String.mk (s.data.map Char.toLower)

/-- Python str.upper (ASCII, as used on state codes in the source). -/
def pyUpper (s : String) : String := String.mk (s.data.map Char.toUpper)

/-- Python str.startswith. -/
def pyStartsWith (s p : String) : Bool := isPrefixList p.data s.data

/-- Python str.endswith. -/
def pyEndsWith (s suf : String) : Bool := isPrefixList suf.data.reverse s.data.reverse

/-- Helper for pySplitComma: split a character list at every comma. -/
def splitCommaAux : List Char → List Char → List (List Char)
  | [], acc => [acc.reverse]
  | c :: cs, acc => if c == ',' then acc.reverse :: splitCommaAux cs [] else splitCommaAux cs (c :: acc)

/-- Python s.split( comma ), as used on the region and carrier cells. -/
def pySplitComma (s : String) : List String :=
  (splitCommaAux s.data []).map (fun l => String.mk l)

/-- Python str.strip, removing the surrounding blanks of a token. -/
def pyStrip (s : String) : String :=
  String.mk (((s.data.dropWhile (fun c => c == ' ')).reverse.dropWhile (fun c => c == ' ')).reverse)

/-- Python pandas Series.unique: first occurrence of each value, in order. -/
def pyUniqueAux [BEq α] (seen : List α) : List α → List α
  | [] => []
  | x :: xs => if seen.contains x then pyUniqueAux seen xs else x :: pyUniqueAux (x :: seen) xs

/-- Python pandas Series.unique entry point. -/
def pyUnique [BEq α] (l : List α) : List α := pyUniqueAux [] l

/- ----------------------------------------------------------------- -/
/- Data model: network component tables (external data container).    -/
/- ----------------------------------------------------------------- -/

/-- One row of n.buses with the four region attributes read by get_region_buses. -/
structure Bus where
  name : String
  country : String
  reeds_state : String
  interconnect : String
  nerc_reg : String
deriving DecidableEq

/-- One row of n.lines; only the extendability flag is read by the dispatcher. -/
structure LineRow where
  name : String
  s_nom_extendable : Bool
deriving DecidableEq

/-- One row of n.links as read by the battery and heat-pump families. -/
structure LinkRow where
  name : String
  p_nom_extendable : Bool
  efficiency : ℚ
deriving DecidableEq

/-- One row of n.generators or n.storage_units as read by filter_components
and the reserve-margin and portfolio-standard families. -/
structure ComponentRow where
  name : String
  bus : String
  carrier : String
  p_nom_extendable : Bool
  p_nom : ℚ
deriving DecidableEq

/-- One row of n.stores; the sector-co2 family selects stores by name. -/
structure StoreRow where
  name : String
deriving DecidableEq

/-- One row of n.loads. -/
structure LoadRow where
  name : String
  bus : String
deriving DecidableEq

/-- One snapshot of a multi-period snapshot index: investment period and a
timestamp within the period. -/
structure Snapshot where
  period : Int
  step : Nat
deriving DecidableEq

/-- The network data container, restricted to the fields the embedded
functions read.  loads_t_p_set is the p_set time series of a load at a
snapshot; active is the get_active_assets per-horizon activity query
(component type, row name, planning horizon), an external query of the data
container in the interface the spec gives. -/
structure Network where
  buses : List Bus
  lines : List LineRow
  links : List LinkRow
  generators : List ComponentRow
  storage_units : List ComponentRow
  stores : List StoreRow
  loads : List LoadRow
  snapshots : List Snapshot
  investment_periods : List Int
  loads_t_p_set : Snapshot → String → ℚ
  active : String → String → Int → Bool

/-- The registered linear constraints: a name, a left-hand side that is a
linear combination of named decision variables, a sense, and a rational
right-hand side. -/
inductive Sense
  | le
  | ge
  | eq
deriving DecidableEq

/-- A named constraint as handed to model.add_constraints. -/
structure LinearConstraint where
  name : String
  lhs : List (ℚ × String)
  sense : Sense
  rhs : ℚ
deriving DecidableEq

/-- Value of a linear expression under an assignment of the decision variables. -/
def lhsEval (σ : String → ℚ) (terms : List (ℚ × String)) : ℚ :=
  (terms.map (fun t => t.1 * σ t.2)).sum

/-- Satisfaction of one registered constraint by a variable assignment. -/
def LinearConstraint.satisfiedBy (c : LinearConstraint) (σ : String → ℚ) : Prop :=
  match c.sense with
  | Sense.le => lhsEval σ c.lhs ≤ c.rhs
  | Sense.ge => lhsEval σ c.lhs ≥ c.rhs
  | Sense.eq => lhsEval σ c.lhs = c.rhs

instance (c : LinearConstraint) (σ : String → ℚ) : Decidable (c.satisfiedBy σ) := by
  unfold LinearConstraint.satisfiedBy
  cases c.sense <;> infer_instance

instance {ε α : Type} [DecidableEq ε] [DecidableEq α] : DecidableEq (Except ε α) := fun a b =>
  match a, b with
  | Except.error e, Except.error f =>
      if h : e = f then isTrue (by rw [h])
      else isFalse (fun hc => h (Except.error.inj hc))
  | Except.error _, Except.ok _ => isFalse (fun hc => Except.noConfusion hc)
  | Except.ok _, Except.error _ => isFalse (fun hc => Except.noConfusion hc)
  | Except.ok x, Except.ok y =>
      if h : x = y then isTrue (by rw [h])
      else isFalse (fun hc => h (Except.ok.inj hc))

/-- Decision-variable naming helper for per-snapshot variables. -/
def mkVar (kind comp : String) (s : Snapshot) : String :=
  kind ++ "|" ++ comp ++ "|" ++ toString s.period ++ "|" ++ toString s.step

/- ----------------------------------------------------------------- -/
/- Region Resolver (source: get_region_buses).                        -/
/- ----------------------------------------------------------------- -/

/-- Embeds get_region_buses: a bus row is kept when its country, reeds_state
or nerc_reg is a member of region_list, when its lowercased interconnect is
a member of region_list, or when region_list holds the literal token all
(the source ORs the mask with 1 in that case, keeping every row). -/
def get_region_buses (buses : List Bus) (region_list : List String) : List Bus :=
  buses.filter (fun b =>
    region_list.contains b.country
      || region_list.contains b.reeds_state
      || region_list.contains (pyLower b.interconnect)
      || region_list.contains b.nerc_reg
      || region_list.contains "all")

/-- Modelled from the spec: the Region Resolver as the spec words it, with
the interconnect attribute matched case-insensitively (both the token and
the attribute lowercased).  Kept for refinement comparison against
get_region_buses, which lowercases only the bus attribute. -/
def get_region_buses_spec (buses : List Bus) (region_list : List String) : List Bus :=
  buses.filter (fun b =>
    region_list.contains b.country
      || region_list.contains b.reeds_state
      || region_list.any (fun t => pyLower t == pyLower b.interconnect)
      || region_list.contains b.nerc_reg
      || region_list.contains "all")

/- ----------------------------------------------------------------- -/
/- Component Filter (source: filter_components).                      -/
/- ----------------------------------------------------------------- -/

/-- Embeds n.df(component_type): the component table named by the type tag. -/
def Network.df (n : Network) (component_type : String) : List ComponentRow :=
  if component_type == "Generator" then n.generators
  else if component_type == "StorageUnit" then n.storage_units
  else []

/-- Embeds filter_components: the conjunction of the activity mask, the
carrier allow-list, the bus membership and the extendability flag, applied
to the component table; the source table itself is left untouched. -/
def filter_components (n : Network) (component_type : String) (planning_horizon : Int)
    (carrier_list : List String) (region_buses : List String) (extendable : Bool) :
    List ComponentRow :=
  (n.df component_type).filter (fun c =>
    n.active component_type c.name planning_horizon
      && carrier_list.contains c.carrier
      && region_buses.contains c.bus
      && (c.p_nom_extendable == extendable))

/- ----------------------------------------------------------------- -/
/- Solve Strategy Dispatcher (source: solve_network).                 -/
/- ----------------------------------------------------------------- -/

/-- The three solve strategies of the dispatcher. -/
inductive SolveStrategy
  | rollingHorizon
  | direct
  | iterativeTransmissionExpansion
deriving DecidableEq

/-- The solving options dictionary cf_solving; a none field is an absent
key, for which the source supplies a default at the read site. -/
structure SolvingOptions where
  rolling_horizon : Option Bool := none
  skip_iterations : Option Bool := none
  track_iterations : Option Bool := none
  min_iterations : Option Nat := none
  max_iterations : Option Nat := none
deriving DecidableEq

/-- Observable outcome of one solve_network call: the strategy taken, the
iteration bounds handed to the iterative solver (the source wraps each
bound in a stray one-element tuple; only the bound value is modelled), the
non-ok warning, the infeasibility diagnostics request, and the raised
RuntimeError. -/
structure SolveOutcome where
  strategy : SolveStrategy
  iterationBounds : Option (Nat × Nat)
  warned : Bool
  printedInfeasibilityReport : Bool
  raisedError : Bool
deriving DecidableEq

/-- Embeds solve_network: the strategy selection of lines 1280-1303 and the
status handling of lines 1305-1311.  The backend bk stands for the pypsa
optimize entry points, returning the (status, condition) pair of a direct
or iterative solve; the rolling-horizon branch sets both to the empty
string, exactly as the source does. -/
def solve_network (n : Network) (cf : SolvingOptions)
    (bk : SolveStrategy → String × String) : SolveOutcome :=
  let rolling_horizon := cf.rolling_horizon.getD false
  let skip_iterations :=
    if !(n.lines.any (fun l => l.s_nom_extendable)) then true
    else cf.skip_iterations.getD false
  let strat :=
    if rolling_horizon then SolveStrategy.rollingHorizon
    else if skip_iterations then SolveStrategy.direct
    else SolveStrategy.iterativeTransmissionExpansion
  let bounds :=
    if rolling_horizon || skip_iterations then none
    else some (cf.min_iterations.getD 4, cf.max_iterations.getD 6)
  let sc := if rolling_horizon then ("", "") else bk strat
  { strategy := strat
    iterationBounds := bounds
    warned := sc.1 != "ok" && !rolling_horizon
    printedInfeasibilityReport := pyIn "infeasible" sc.2
    raisedError := pyIn "infeasible" sc.2 }

/-- Modelled from the spec: the strategy-selection rule exactly as the spec
states it (rolling horizon first, else direct when no line is extendable,
else iterative), which never consults a skip_iterations option.  Kept for
refinement comparison against solve_network. -/
def solve_strategy_spec (rolling anyExtendableLine : Bool) : SolveStrategy :=
  if rolling then SolveStrategy.rollingHorizon
  else if !anyExtendableLine then SolveStrategy.direct
  else SolveStrategy.iterativeTransmissionExpansion

/- ----------------------------------------------------------------- -/
/- Portfolio standards (source: add_RPS_constraints).                 -/
/- ----------------------------------------------------------------- -/

/-- One row of the assembled portfolio_standards table (the configured CSV
concatenated with the rps and ces REEDS tables, an upstream input). -/
structure RpsRow where
  name : String
  region : String
  carrier : String
  planning_horizon : Int
  pct : ℚ
deriving DecidableEq

/-- Embeds the region_demand read of add_RPS_constraints: the p_set of the
loads attached to the region buses, summed over every snapshot of the
planning horizon. -/
def region_demand (n : Network) (planning_horizon : Int) (region_buses : List Bus) : ℚ :=
  ((n.snapshots.filter (fun s => s.period == planning_horizon)).map (fun s =>
    ((n.loads.filter (fun l => (region_buses.map Bus.name).contains l.bus)).map
      (fun l => n.loads_t_p_set s l.name)).sum)).sum

/-- The loop body of add_RPS_constraints for one policy row: resolve the
region and skip the row when no bus resolves; when the region holds any
generator at all, register one constraint requiring the summed dispatch of
the carrier-eligible generators over the horizon to reach pct times the
summed regional load. -/
def rps_row_constraint (n : Network) (pct_lim : RpsRow) : Option LinearConstraint :=
  let region_list := (pySplitComma pct_lim.region).map pyStrip
  let region_buses := get_region_buses n.buses region_list
  if region_buses.isEmpty then none
  else
    let carriers := (pySplitComma pct_lim.carrier).map pyStrip
    let region_gens := n.generators.filter
      (fun g => (region_buses.map Bus.name).contains g.bus)
    let region_gens_eligible := region_gens.filter (fun g => carriers.contains g.carrier)
    if region_gens.isEmpty then none
    else
      let snaps := n.snapshots.filter (fun s => s.period == pct_lim.planning_horizon)
      some
        { name := "GlobalConstraint-" ++ pct_lim.name ++ "_"
            ++ toString pct_lim.planning_horizon ++ "_rps_limit"
          lhs := region_gens_eligible.flatMap
            (fun g => snaps.map (fun s => ((1 : ℚ), mkVar "Generator-p" g.name s)))
          sense := Sense.ge
          rhs := pct_lim.pct * region_demand n pct_lim.planning_horizon region_buses }

/-- Embeds add_RPS_constraints from the assembled policy table onward: keep
rows with pct above zero whose horizon is a configured planning horizon and
run the loop body on each. -/
def add_RPS_constraints (n : Network) (portfolio_standards : List RpsRow)
    (planning_horizons : List Int) : List LinearConstraint :=
  ((portfolio_standards.filter (fun r => 0 < r.pct)).filter
      (fun r => planning_horizons.contains r.planning_horizon)).filterMap
    (rps_row_constraint n)

/- ----------------------------------------------------------------- -/
/- Reserve margins (source: add_SAFE_constraints, add_SAFER_constraints). -/
/- ----------------------------------------------------------------- -/

/-- The error every invocation of the reserve-margin queries raises: the
pandas queries carrier in @conventional_carriers at lines 693-694, 698-699,
756-758 and 761-763 read the name conventional_carriers, which is bound
nowhere in the module - it is not a local of either function, not a module
global, not an import, and not injected by the workflow (only snakemake
is).  Pandas resolves an @-name from the locals and globals of the calling
frame and raises UndefinedVariableError when it is absent. -/
def undefinedConventionalCarriers : String :=
  "UndefinedVariableError: name conventional_carriers is not defined"

/-- Embeds add_SAFE_constraints: the source computes the system peak demand
and the reserve requirement (lines 690-692) and then filters the extendable
generators with the query carrier in @conventional_carriers (line 693); the
unbound name makes pandas raise there on every invocation, before any
constraint is registered, so the observable behaviour is the raised error. -/
def add_SAFE_constraints (n : Network) (safe_reservemargin : ℚ) :
    Except String (List LinearConstraint) :=
  Except.error undefinedConventionalCarriers

/-- One row of the assembled regional planning-reserve-margin table (the
configured CSV concatenated with the REEDS table, an upstream input). -/
structure PrmRow where
  name : String
  region : String
  prm : ℚ
  planning_horizon : Int
deriving DecidableEq

/-- The loop of add_SAFER_constraints: each row resolves its region and is
skipped when no bus resolves (lines 738-742); a surviving row computes the
regional peak demand and reserve (lines 744-753) and then reaches the query
carrier in @conventional_carriers (line 757), where the unbound name makes
pandas raise, aborting the whole call before any constraint is registered. -/
def saferLoop (n : Network) : List PrmRow → Except String (List LinearConstraint)
  | [] => Except.ok []
  | prm :: rest =>
    let region_list := (pySplitComma prm.region).map pyStrip
    let region_buses := get_region_buses n.buses region_list
    if region_buses.isEmpty then saferLoop n rest
    else Except.error undefinedConventionalCarriers

/-- Embeds add_SAFER_constraints from the assembled table onward: rows of a
configured horizon run through the loop; the call returns normally only
when every surviving row is skipped for an unresolvable region. -/
def add_SAFER_constraints (n : Network) (regional_prm : List PrmRow)
    (planning_horizons : List Int) : Except String (List LinearConstraint) :=
  saferLoop n (regional_prm.filter (fun r => planning_horizons.contains r.planning_horizon))

/- ----------------------------------------------------------------- -/
/- Storage symmetry (source: add_battery_constraints).                -/
/- ----------------------------------------------------------------- -/

/-- Embeds add_battery_constraints: nothing when no link is extendable;
otherwise the extendable links whose names contain the battery charger and
battery discharger markers are paired positionally (scalarising the single
vector equality the source registers under the name Link-charger_ratio)
and each pair is constrained to charger capacity minus discharger
efficiency times discharger capacity equal to zero. -/
def add_battery_constraints (links : List LinkRow) : List LinearConstraint :=
  if !(links.any (fun l => l.p_nom_extendable)) then []
  else
    let dischargers_ext :=
      (links.filter (fun l => pyIn "battery discharger" l.name)).filter
        (fun l => l.p_nom_extendable)
    let chargers_ext :=
      (links.filter (fun l => pyIn "battery charger" l.name)).filter
        (fun l => l.p_nom_extendable)
    (chargers_ext.zip dischargers_ext).map (fun cd =>
      { name := "Link-charger_ratio|" ++ cd.1.name
        lhs := [((1 : ℚ), "Link-p_nom|" ++ cd.1.name),
                (-cd.2.efficiency, "Link-p_nom|" ++ cd.2.name)]
        sense := Sense.eq
        rhs := 0 })

/- ----------------------------------------------------------------- -/
/- Sector CO2 caps (source: add_sector_co2_constraints).              -/
/- ----------------------------------------------------------------- -/

/-- One row of the sector co2 policy table. -/
structure Co2PolicyRow where
  sector : String
  state : String
  year : Int
  co2_limit_mmt : ℚ
deriving DecidableEq

/-- The last snapshot of an investment period, as selected by the source
expression sns[sns.get_level_values(period) == year][-1]. -/
def lastSnapshotOf (n : Network) (year : Int) : Option Snapshot :=
  (n.snapshots.filter (fun s => s.period == year)).getLast?

/-- Store-e operand over a store selection at one snapshot. -/
def storeTerms (snapshot : Snapshot) (stores : List StoreRow) : List (ℚ × String) :=
  stores.map (fun st => ((1 : ℚ), mkVar "Store-e" st.name snapshot))

/-- Embeds apply_total_state_limit: stores of the state whose names end in
the co2 or ch4 markers, capped at the policy value at the final snapshot of
the year. -/
def apply_total_state_limit (n : Network) (year : Int) (state : String) (value : ℚ) :
    Except String LinearConstraint :=
  match lastSnapshotOf n year with
  | none => Except.error "IndexError"
  | some snapshot =>
    let stores := n.stores.filter (fun st =>
      pyStartsWith st.name state && (pyEndsWith st.name "-co2" || pyEndsWith st.name "-ch4"))
    Except.ok
      { name := "co2_limit-" ++ toString year ++ "-" ++ state
        lhs := storeTerms snapshot stores
        sense := Sense.le
        rhs := value }

/-- Embeds apply_sector_state_limit. -/
def apply_sector_state_limit (n : Network) (year : Int) (state sector : String) (value : ℚ) :
    Except String LinearConstraint :=
  match lastSnapshotOf n year with
  | none => Except.error "IndexError"
  | some snapshot =>
    let stores := n.stores.filter (fun st =>
      pyStartsWith st.name state
        && (pyEndsWith st.name (sector ++ "-co2") || pyEndsWith st.name (sector ++ "-ch4")))
    Except.ok
      { name := "co2_limit-" ++ toString year ++ "-" ++ state ++ "-" ++ sector
        lhs := storeTerms snapshot stores
        sense := Sense.le
        rhs := value }

/-- Embeds apply_total_national_limit. -/
def apply_total_national_limit (n : Network) (year : Int) (value : ℚ) :
    Except String LinearConstraint :=
  match lastSnapshotOf n year with
  | none => Except.error "IndexError"
  | some snapshot =>
    let stores := n.stores.filter (fun st =>
      pyEndsWith st.name "-co2" || pyEndsWith st.name "-ch4")
    Except.ok
      { name := "co2_limit-" ++ toString year
        lhs := storeTerms snapshot stores
        sense := Sense.le
        rhs := value }

/-- Embeds apply_sector_national_limit. -/
def apply_sector_national_limit (n : Network) (year : Int) (sector : String) (value : ℚ) :
    Except String LinearConstraint :=
  match lastSnapshotOf n year with
  | none => Except.error "IndexError"
  | some snapshot =>
    let stores := n.stores.filter (fun st =>
      pyEndsWith st.name (sector ++ "-co2") || pyEndsWith st.name (sector ++ "-ch4"))
    Except.ok
      { name := "co2_limit-" ++ toString year ++ "-" ++ sector
        lhs := storeTerms snapshot stores
        sense := Sense.le
        rhs := value }

/-- The per-year body of the state loop of add_sector_co2_constraints: the
source asserts exactly one policy row per (sector, state, year) and then
dispatches on state upper-cased USA and on the sector tag all. -/
def co2ProcessYears (n : Network) (df_state : List Co2PolicyRow) (state sector : String) :
    List Int → Except String (List LinearConstraint)
  | [] => Except.ok []
  | year :: rest =>
    let df_limit := df_state.filter (fun r => r.year == year)
    match df_limit with
    | [row] =>
      let value := row.co2_limit_mmt * 1000000
      let step :=
        if pyUpper state == "USA" then
          if sector == "all" then apply_total_national_limit n year value
          else apply_sector_national_limit n year sector value
        else
          if sector == "all" then apply_total_state_limit n year state value
          else apply_sector_state_limit n year state sector value
      match step with
      | Except.error e => Except.error e
      | Except.ok c =>
        match co2ProcessYears n df_state state sector rest with
        | Except.error e => Except.error e
        | Except.ok cs => Except.ok (c :: cs)
    | _ => Except.error "AssertionError"

/-- The state loop of add_sector_co2_constraints.  The Python local year is
threaded as lastYear: the warning emitted when a state has no realized
policy year interpolates year into its message, and when no year was ever
assigned in this call that read raises UnboundLocalError - the loop
comprehension building years does not leak its binder. -/
def co2ProcessStates (n : Network) (df_sector : List Co2PolicyRow) (sector : String)
    (lastYear : Option Int) :
    List String → Except String (Option Int × List LinearConstraint)
  | [] => Except.ok (lastYear, [])
  | state :: rest =>
    let df_state := df_sector.filter (fun r => r.state == state)
    let years := (pyUnique (df_state.map (fun r => r.year))).filter
      (fun y => n.investment_periods.contains y)
    if years.isEmpty then
      match lastYear with
      | none => Except.error "UnboundLocalError: year"
      | some _ => co2ProcessStates n df_sector sector lastYear rest
    else
      match co2ProcessYears n df_state state sector years with
      | Except.error e => Except.error e
      | Except.ok cs =>
        match co2ProcessStates n df_sector sector (years.getLast? <|> lastYear) rest with
        | Except.error e => Except.error e
        | Except.ok lycs => Except.ok (lycs.1, cs ++ lycs.2)

/-- The sector loop of add_sector_co2_constraints, still threading the
Python local year across sectors. -/
def co2ProcessSectors (n : Network) (df : List Co2PolicyRow) (lastYear : Option Int) :
    List String → Except String (Option Int × List LinearConstraint)
  | [] => Except.ok (lastYear, [])
  | sector :: rest =>
    let df_sector := df.filter (fun r => r.sector == sector)
    let states := pyUnique (df_sector.map (fun r => r.state))
    match co2ProcessStates n df_sector sector lastYear states with
    | Except.error e => Except.error e
    | Except.ok lycs =>
      match co2ProcessSectors n df lycs.1 rest with
      | Except.error e => Except.error e
      | Except.ok lycs2 => Except.ok (lycs2.1, lycs.2 ++ lycs2.2)

/-- Embeds add_sector_co2_constraints from the loaded policy table onward:
an empty table is only warned about; otherwise the nested sector, state and
year loops run, raising where the Python source would raise. -/
def add_sector_co2_constraints (n : Network) (df : List Co2PolicyRow) :
    Except String (List LinearConstraint) :=
  if df.isEmpty then Except.ok []
  else
    match co2ProcessSectors n df none (pyUnique (df.map (fun r => r.sector))) with
    | Except.error e => Except.error e
    | Except.ok lycs => Except.ok lycs.2

/- ----------------------------------------------------------------- -/
/- Heat-pump coupling (source: add_cooling_heat_pump_constraints).    -/
/- ----------------------------------------------------------------- -/

/-- Embeds add_hp_capacity_constraint: the links ending in the hp type are
the heating units; none of them means nothing to add; otherwise their
count must equal the count of the matching cooling links or the source
assertion fails, and on success the paired capacities are equated
(scalarised positionally from the vector equality the source registers). -/
def add_hp_capacity_constraint (links : List LinkRow) (hp_type : String) :
    Except String (List LinearConstraint) :=
  if hp_type != "ashp" && hp_type != "gshp" then Except.error "AssertionError"
  else
    let heating_hps := (links.filter (fun l => pyEndsWith l.name hp_type)).map
      (fun l => l.name)
    if heating_hps.isEmpty then Except.ok []
    else
      let cooling_hps := (links.filter
        (fun l => pyEndsWith l.name (hp_type ++ "-cooling"))).map (fun l => l.name)
      if heating_hps.length != cooling_hps.length then Except.error "AssertionError"
      else
        Except.ok ((heating_hps.zip cooling_hps).map (fun hc =>
          { name := "Link-" ++ hp_type ++ "_cooling_capacity|" ++ hc.1
            lhs := [((1 : ℚ), "Link-p_nom|" ++ hc.1), ((-1 : ℚ), "Link-p_nom|" ++ hc.2)]
            sense := Sense.eq
            rhs := 0 }))

/- ----------------------------------------------------------------- -/
/- Concrete fixtures used by witnesses and counterexamples.           -/
/- ----------------------------------------------------------------- -/

/-- A bus whose interconnect carries an upper-case initial, as the real
networks do. -/
def westernBus : Bus :=
  { name := "b1", country := "US", reeds_state := "CA",
    interconnect := "Western", nerc_reg := "WECC" }

/-- A network with every table empty, extended per fixture. -/
def emptyNetwork : Network :=
  { buses := [], lines := [], links := [], generators := [], storage_units := [],
    stores := [], loads := [], snapshots := [], investment_periods := [],
    loads_t_p_set := fun _ _ => 0, active := fun _ _ _ => true }

/-- Two-generator network for the Component Filter witness. -/
def netFilterEx : Network :=
  { emptyNetwork with
    generators := [{ name := "g1", bus := "b1", carrier := "solar", p_nom_extendable := true, p_nom := 10 },
                   { name := "g2", bus := "b1", carrier := "coal", p_nom_extendable := false, p_nom := 5 }] }

/-- Network holding one extendable transmission line. -/
def netExtLine : Network :=
  { emptyNetwork with lines := [{ name := "line1", s_nom_extendable := true }] }

/-- Solving options requesting that iterations be skipped. -/
def cfSkip : SolvingOptions := { skip_iterations := some true }

/-- Solving options with every key absent. -/
def cfEmpty : SolvingOptions := {}

/-- A backend reporting a clean optimum. -/
def bkOk : SolveStrategy → String × String := fun _ => ("ok", "optimal")

/-- A backend reporting an infeasible model. -/
def bkInfeasible : SolveStrategy → String × String := fun _ => ("warning", "infeasible")

/-- Network for the portfolio-standard and reserve-margin witnesses: one
region bus carrying an eligible extendable solar generator, an existing
coal generator, and a load of 30 in each of the two snapshots of horizon
2030. -/
def netPolicy : Network :=
  { emptyNetwork with
    buses := [{ name := "b1", country := "US", reeds_state := "CA",
                interconnect := "western", nerc_reg := "WECC" }],
    generators := [{ name := "g1", bus := "b1", carrier := "solar", p_nom_extendable := true, p_nom := 0 },
                   { name := "g2", bus := "b1", carrier := "coal", p_nom_extendable := false, p_nom := 100 }],
    loads := [{ name := "ld1", bus := "b1" }],
    snapshots := [{ period := 2030, step := 0 }, { period := 2030, step := 1 }],
    investment_periods := [2030],
    loads_t_p_set := fun _ _ => 30 }

/-- A portfolio-standard policy row asking 40 percent of the CA demand. -/
def rpsRowCA : RpsRow :=
  { name := "CA_rps", region := "CA", carrier := "solar, onwind",
    planning_horizon := 2030, pct := 2/5 }

/-- A portfolio-standard policy row with a non-positive percentage. -/
def rpsRowZero : RpsRow :=
  { name := "WA_rps", region := "CA", carrier := "solar",
    planning_horizon := 2030, pct := 0 }

/-- A portfolio-standard row naming a region absent from the network. -/
def rpsRowNowhere : RpsRow :=
  { name := "ZZ_rps", region := "ZZ", carrier := "solar",
    planning_horizon := 2030, pct := 1/2 }

/-- A portfolio-standard row whose region holds generators but whose
carrier list matches none of them. -/
def rpsRowNuclear : RpsRow :=
  { name := "CA_ces", region := "CA", carrier := "nuclear",
    planning_horizon := 2030, pct := 1 }

/-- A regional reserve-margin row whose region resolves to the CA bus. -/
def prmRowCA : PrmRow :=
  { name := "CA_prm", region := "CA", prm := 1/10, planning_horizon := 2030 }

/-- A regional reserve-margin row naming a region absent from the network. -/
def prmRowZZ : PrmRow :=
  { name := "ZZ_prm", region := "ZZ", prm := 1/10, planning_horizon := 2030 }

/-- Battery charger and discharger link pair with efficiency 0.9 on the
discharger, plus an unrelated link. -/
def linksBattery : List LinkRow :=
  [{ name := "b1 battery charger", p_nom_extendable := true, efficiency := 1 },
   { name := "b1 battery discharger", p_nom_extendable := true, efficiency := 9/10 },
   { name := "b1 ashp", p_nom_extendable := true, efficiency := 3 }]

/-- Assignment binding the discharger capacity to 100 and the charger
capacity to 90. -/
def sigmaBattery : String → ℚ := fun v =>
  if v == "Link-p_nom|b1 battery charger" then 90
  else if v == "Link-p_nom|b1 battery discharger" then 100
  else 0

/-- Network for the sector-co2 failing input: one realized investment
period 2030 with a snapshot and a co2 store. -/
def netCo2 : Network :=
  { emptyNetwork with
    stores := [{ name := "CA pwr-co2" }],
    snapshots := [{ period := 2030, step := 0 }],
    investment_periods := [2030] }

/-- Sector-co2 policy table whose single row names the year 2100, a year
the network never realizes. -/
def dfCo2Mismatch : List Co2PolicyRow :=
  [{ sector := "all", state := "CA", year := 2100, co2_limit_mmt := 10 }]

/-- Sector-co2 policy table with one realized-year row. -/
def dfCo2Good : List Co2PolicyRow :=
  [{ sector := "all", state := "CA", year := 2030, co2_limit_mmt := 10 }]

/-- Heat-pump link fixture: two heating units against one cooling unit. -/
def linksHpMismatch : List LinkRow :=
  [{ name := "p1 ashp", p_nom_extendable := true, efficiency := 3 },
   { name := "p2 ashp", p_nom_extendable := true, efficiency := 3 },
   { name := "p1 ashp-cooling", p_nom_extendable := true, efficiency := 3 }]

/-- Heat-pump link fixture with matching heating and cooling counts. -/
def linksHpMatch : List LinkRow :=
  [{ name := "p1 ashp", p_nom_extendable := true, efficiency := 3 },
   { name := "p1 ashp-cooling", p_nom_extendable := true, efficiency := 3 }]

/- ----------------------------------------------------------------- -/
/- Theorems settling the claims.                                      -/
/- ----------------------------------------------------------------- -/

/-- C3 counterexample: the claim says the interconnect attribute is matched
case-insensitively, but get_region_buses lowercases only the bus attribute
and compares it to the token verbatim, so the token Western (which matches
the interconnect Western case-insensitively, as get_region_buses_spec
shows) resolves to no bus. -/
theorem C3_counterexample_interconnect_case :
    get_region_buses [westernBus] ["Western"] = []
      ∧ get_region_buses_spec [westernBus] ["Western"] = [westernBus] := by
  decide

/-- C3 (amended): the Region Resolver returns exactly the buses whose
country, state or NERC code equals some token, or whose lowercased
interconnect equals some token verbatim (so interconnect tokens match only
when already lowercase); a token list holding all returns every bus; a
token list matching no attribute of any bus returns the empty set. -/
theorem C3_region_resolver_amended (buses : List Bus) (tokens : List String) :
    (∀ b, b ∈ get_region_buses buses tokens ↔
        b ∈ buses ∧ (tokens.contains b.country = true ∨ tokens.contains b.reeds_state = true
          ∨ tokens.contains (pyLower b.interconnect) = true ∨ tokens.contains b.nerc_reg = true
          ∨ tokens.contains "all" = true)) ∧
    (tokens.contains "all" = true → get_region_buses buses tokens = buses) ∧
    ((∀ b ∈ buses, tokens.contains b.country = false ∧ tokens.contains b.reeds_state = false
        ∧ tokens.contains (pyLower b.interconnect) = false ∧ tokens.contains b.nerc_reg = false
        ∧ tokens.contains "all" = false) → get_region_buses buses tokens = []) := by
  refine ⟨?_, ?_, ?_⟩
  · intro b
    simp [get_region_buses, List.mem_filter, Bool.or_eq_true, or_assoc]
  · intro hall
    apply List.filter_eq_self.mpr
    intro b _
    simp only [Bool.or_eq_true]
    exact Or.inr hall
  · intro h
    apply List.filter_eq_nil_iff.mpr
    intro b hb
    obtain ⟨h1, h2, h3, h4, h5⟩ := h b hb
    simp only [Bool.or_eq_true, not_or, Bool.not_eq_true]
    exact ⟨⟨⟨⟨h1, h2⟩, h3⟩, h4⟩, h5⟩

/-- Closed witness for the amended C3 theorem on the single-bus network:
the wildcard list returns the bus, the unmatched token list returns none. -/
theorem C3_region_resolver_amended_witness :
    get_region_buses [westernBus] ["all"] = [westernBus]
      ∧ get_region_buses [westernBus] ["TX"] = [] := by
  constructor
  · exact (C3_region_resolver_amended [westernBus] ["all"]).2.1 (by decide)
  · exact (C3_region_resolver_amended [westernBus] ["TX"]).2.2 (by decide)

/-- C4: the Component Filter returns exactly the rows of the chosen
component table that are active in the horizon, carry an allowed carrier,
sit on a region bus and carry the requested extendability flag; the result
is a sublist of the untouched source table (the filter allocates a new
selection, never rewriting the table); and an empty carrier or bus
predicate set yields the empty result rather than an error. -/
theorem C4_filter_components_conjunction (n : Network) (ct : String) (h : Int)
    (carriers buses : List String) (ext : Bool) :
    (∀ r, r ∈ filter_components n ct h carriers buses ext ↔
        r ∈ n.df ct ∧ n.active ct r.name h = true ∧ carriers.contains r.carrier = true
          ∧ buses.contains r.bus = true ∧ r.p_nom_extendable = ext) ∧
    (filter_components n ct h carriers buses ext).Sublist (n.df ct) ∧
    (carriers = [] → filter_components n ct h carriers buses ext = []) ∧
    (buses = [] → filter_components n ct h carriers buses ext = []) := by
  refine ⟨?_, ?_, ?_, ?_⟩
  · intro r
    simp [filter_components, List.mem_filter, and_assoc]
  · exact List.filter_sublist _
  · rintro rfl
    apply List.filter_eq_nil_iff.mpr
    intro r hr
    simp
  · rintro rfl
    apply List.filter_eq_nil_iff.mpr
    intro r hr
    simp

/-- Closed witness for C4: an empty carrier list yields the empty result,
and the extendable solar generator is recovered by a matching filter. -/
theorem C4_filter_components_witness :
    filter_components netFilterEx "Generator" 2030 [] ["b1"] true = []
      ∧ ({ name := "g1", bus := "b1", carrier := "solar", p_nom_extendable := true,
           p_nom := 10 } : ComponentRow)
          ∈ filter_components netFilterEx "Generator" 2030 ["solar"] ["b1"] true := by
  constructor
  · exact (C4_filter_components_conjunction netFilterEx "Generator" 2030 [] ["b1"] true).2.2.1 rfl
  · exact ((C4_filter_components_conjunction netFilterEx "Generator" 2030 ["solar"] ["b1"]
      true).1 _).mpr (by refine ⟨by decide, rfl, by decide, by decide, rfl⟩)

/-- C1 counterexample: with rolling horizon unset, an extendable line in the
network and the skip_iterations option set, solve_network takes the direct
solve although the selection rule of the claim (solve_strategy_spec, which
never consults skip_iterations) prescribes the iterative
transmission-expansion solve. -/
theorem C1_counterexample_skip_iterations :
    cfSkip.rolling_horizon.getD false = false
      ∧ netExtLine.lines.any (fun l => l.s_nom_extendable) = true
      ∧ (solve_network netExtLine cfSkip bkOk).strategy = SolveStrategy.direct
      ∧ solve_strategy_spec false (netExtLine.lines.any (fun l => l.s_nom_extendable))
          = SolveStrategy.iterativeTransmissionExpansion := by
  refine ⟨rfl, rfl, rfl, rfl⟩

/-- C1 (amended): rolling horizon, when requested, overrides everything;
otherwise the direct solve is used when no line is extendable or when the
configuration requests skipping iterations, and only otherwise is the
iterative transmission-expansion solve used, carrying the configured
minimum and maximum iteration counts (defaults 4 and 6). -/
theorem C1_solve_strategy_selection_amended (n : Network) (cf : SolvingOptions)
    (bk : SolveStrategy → String × String) :
    (cf.rolling_horizon.getD false = true →
        (solve_network n cf bk).strategy = SolveStrategy.rollingHorizon) ∧
    (cf.rolling_horizon.getD false = false →
      ((n.lines.any (fun l => l.s_nom_extendable) = false ∨ cf.skip_iterations.getD false = true) →
          (solve_network n cf bk).strategy = SolveStrategy.direct) ∧
      (n.lines.any (fun l => l.s_nom_extendable) = true → cf.skip_iterations.getD false = false →
          (solve_network n cf bk).strategy = SolveStrategy.iterativeTransmissionExpansion
            ∧ (solve_network n cf bk).iterationBounds
                = some (cf.min_iterations.getD 4, cf.max_iterations.getD 6))) := by
  refine ⟨?_, ?_⟩
  · intro h
    simp [solve_network, h]
  · intro h
    refine ⟨?_, ?_⟩
    · rintro (h2 | h2) <;> simp [solve_network, h, h2]
    · intro h2 h3
      constructor <;> simp [solve_network, h, h2, h3]

/-- Closed witness for the amended C1 theorem: no-line network goes direct;
extendable-line network with no skip request goes iterative with the
default bounds. -/
theorem C1_solve_strategy_selection_amended_witness :
    (solve_network emptyNetwork cfEmpty bkOk).strategy = SolveStrategy.direct
      ∧ (solve_network netExtLine cfEmpty bkOk).strategy
          = SolveStrategy.iterativeTransmissionExpansion
      ∧ (solve_network netExtLine cfEmpty bkOk).iterationBounds = some (4, 6) := by
  refine ⟨((C1_solve_strategy_selection_amended emptyNetwork cfEmpty bkOk).2 rfl).1
      (Or.inl rfl), ?_, ?_⟩
  · exact (((C1_solve_strategy_selection_amended netExtLine cfEmpty bkOk).2 rfl).2 rfl rfl).1
  · exact (((C1_solve_strategy_selection_amended netExtLine cfEmpty bkOk).2 rfl).2 rfl rfl).2

/-- C2: on a direct or iterative solve (the paths that return a status), a
status other than ok is logged as a warning, and a termination condition
containing infeasible triggers the diagnostic infeasibility report and the
RuntimeError, so an infeasible solve never returns normally. -/
theorem C2_solver_status_handling (n : Network) (cf : SolvingOptions)
    (bk : SolveStrategy → String × String) (st cond : String)
    (hroll : cf.rolling_horizon.getD false = false)
    (hbk : bk (solve_network n cf bk).strategy = (st, cond)) :
    (st ≠ "ok" → (solve_network n cf bk).warned = true) ∧
    (pyIn "infeasible" cond = true →
        (solve_network n cf bk).printedInfeasibilityReport = true
          ∧ (solve_network n cf bk).raisedError = true) := by
  simp only [solve_network, hroll, if_false, Bool.false_eq_true] at hbk ⊢
  rw [hbk]
  constructor
  · intro hne
    simp [hne]
  · intro hin
    simp [hin]

/-- Closed witness for C2: a backend answering (warning, infeasible) on the
empty network yields the warning, the report and the raised error. -/
theorem C2_solver_status_handling_witness :
    (solve_network emptyNetwork cfEmpty bkInfeasible).warned = true
      ∧ (solve_network emptyNetwork cfEmpty bkInfeasible).printedInfeasibilityReport = true
      ∧ (solve_network emptyNetwork cfEmpty bkInfeasible).raisedError = true := by
  have h := C2_solver_status_handling emptyNetwork cfEmpty bkInfeasible
    "warning" "infeasible" rfl rfl
  exact ⟨h.1 (by decide), (h.2 (by decide)).1, (h.2 (by decide)).2⟩

/-- Shape of a registered portfolio-standard constraint: sense and
right-hand side of the loop body on any row it does not skip. -/
theorem rps_row_constraint_some (n : Network) (row : RpsRow) (c : LinearConstraint)
    (h : rps_row_constraint n row = some c) :
    c.sense = Sense.ge
      ∧ c.rhs = row.pct * region_demand n row.planning_horizon
          (get_region_buses n.buses ((pySplitComma row.region).map pyStrip)) := by
  simp only [rps_row_constraint] at h
  by_cases hEmpty : (get_region_buses n.buses ((pySplitComma row.region).map pyStrip)).isEmpty = true
  · rw [if_pos hEmpty] at h
    exact absurd h (by simp)
  · rw [if_neg hEmpty] at h
    by_cases hG : (n.generators.filter (fun g =>
        ((get_region_buses n.buses ((pySplitComma row.region).map pyStrip)).map
          Bus.name).contains g.bus)).isEmpty = true
    · rw [if_pos hG] at h
      exact absurd h (by simp)
    · rw [if_neg hG] at h
      injection h with h
      subst h
      exact ⟨rfl, rfl⟩

/-- The loop body skips a row whose region resolves to no bus or whose
region holds no generator. -/
theorem rps_row_constraint_none (n : Network) (row : RpsRow)
    (h : get_region_buses n.buses ((pySplitComma row.region).map pyStrip) = []
      ∨ n.generators.filter (fun g =>
          ((get_region_buses n.buses ((pySplitComma row.region).map pyStrip)).map
            Bus.name).contains g.bus) = []) :
    rps_row_constraint n row = none := by
  rcases h with h | h
  · simp [rps_row_constraint, h]
  · simp only [rps_row_constraint]
    rw [h]
    simp [ite_self]

/-- C5: every constraint registered by the portfolio-standard family stems
from a table row with positive pct and a configured horizon, and its
right-hand side is the pct of that row times the summed load (p_set over
the snapshots of the row horizon) of the loads on the buses of the
resolved region; a table whose rows all have non-positive pct registers nothing. -/
theorem C5_rps_rhs_and_pct_filter (n : Network) (table : List RpsRow) (phs : List Int) :
    (∀ c ∈ add_RPS_constraints n table phs, ∃ row ∈ table, 0 < row.pct
        ∧ row.planning_horizon ∈ phs
        ∧ c.sense = Sense.ge
        ∧ c.rhs = row.pct * region_demand n row.planning_horizon
            (get_region_buses n.buses ((pySplitComma row.region).map pyStrip))) ∧
    ((∀ row ∈ table, row.pct ≤ 0) → add_RPS_constraints n table phs = []) := by
  constructor
  · intro c hc
    rw [add_RPS_constraints, List.mem_filterMap] at hc
    obtain ⟨row, hrow, hsome⟩ := hc
    rw [List.mem_filter] at hrow
    obtain ⟨hrow1, hph⟩ := hrow
    rw [List.mem_filter] at hrow1
    obtain ⟨hmem, hpct⟩ := hrow1
    obtain ⟨hsense, hrhs⟩ := rps_row_constraint_some n row c hsome
    exact ⟨row, hmem, by simpa using hpct, List.mem_of_elem_eq_true hph, hsense, hrhs⟩
  · intro hall
    rw [add_RPS_constraints]
    have : table.filter (fun r => decide (0 < r.pct)) = [] := by
      apply List.filter_eq_nil_iff.mpr
      intro row hrow
      simpa using not_lt.mpr (hall row hrow)
    rw [this]
    rfl

/-- Closed witness for C5: the zero-pct row registers nothing, and the
40-percent CA row compiles to right-hand side 24 = 0.4 times the regional
load 60. -/
theorem C5_rps_rhs_and_pct_filter_witness :
    add_RPS_constraints netPolicy [rpsRowZero] [2030] = []
      ∧ (add_RPS_constraints netPolicy [rpsRowCA] [2030]).map (fun c => c.rhs) = [24] := by
  constructor
  · exact (C5_rps_rhs_and_pct_filter netPolicy [rpsRowZero] [2030]).2 (by decide)
  · exact of_decide_eq_true (by with_unfolding_all rfl)

/-- C6: every constraint registered by the battery symmetry family links an
extendable charger link to an extendable discharger link, and any
assignment satisfying it gives the charger a capacity equal to the
discharger efficiency times the discharger capacity; in particular,
efficiency 0.9 with discharger capacity 100 forces charger capacity 90. -/
theorem C6_battery_symmetry (links : List LinkRow) (σ : String → ℚ) :
    ∀ c ∈ add_battery_constraints links, c.satisfiedBy σ →
      ∃ ch dch : LinkRow, ch ∈ links ∧ dch ∈ links
        ∧ ch.p_nom_extendable = true ∧ dch.p_nom_extendable = true
        ∧ pyIn "battery charger" ch.name = true ∧ pyIn "battery discharger" dch.name = true
        ∧ σ ("Link-p_nom|" ++ ch.name) = dch.efficiency * σ ("Link-p_nom|" ++ dch.name)
        ∧ (dch.efficiency = 9/10 → σ ("Link-p_nom|" ++ dch.name) = 100 →
            σ ("Link-p_nom|" ++ ch.name) = 90) := by
  intro c hc hsat
  rw [add_battery_constraints] at hc
  by_cases hext : (links.any (fun l => l.p_nom_extendable)) = true
  · simp only [hext, Bool.not_true, Bool.false_eq_true, if_false] at hc
    rw [List.mem_map] at hc
    obtain ⟨cd, hcd, hceq⟩ := hc
    obtain ⟨hch, hdch⟩ := List.of_mem_zip hcd
    rw [List.mem_filter] at hch hdch
    obtain ⟨hch1, hchExt⟩ := hch
    obtain ⟨hdch1, hdchExt⟩ := hdch
    rw [List.mem_filter] at hch1 hdch1
    refine ⟨cd.1, cd.2, hch1.1, hdch1.1, hchExt, hdchExt, hch1.2, hdch1.2, ?_, ?_⟩
    · subst hceq
      simp only [LinearConstraint.satisfiedBy, lhsEval, List.map_cons, List.map_nil,
        List.sum_cons, List.sum_nil] at hsat
      linarith
    · intro heff hval
      subst hceq
      simp only [LinearConstraint.satisfiedBy, lhsEval, List.map_cons, List.map_nil,
        List.sum_cons, List.sum_nil] at hsat
      rw [heff, hval] at hsat
      linarith
  · simp only [Bool.not_eq_true] at hext
    simp [hext] at hc

/-- Closed witness for C6 on the concrete battery pair: the assignment
binding the discharger to 100 and the charger to 90 satisfies the
registered constraint, and the theorem recovers the symmetry equation. -/
theorem C6_battery_symmetry_witness :
    ∃ ch dch : LinkRow, ch ∈ linksBattery ∧ dch ∈ linksBattery
      ∧ ch.p_nom_extendable = true ∧ dch.p_nom_extendable = true
      ∧ pyIn "battery charger" ch.name = true ∧ pyIn "battery discharger" dch.name = true
      ∧ sigmaBattery ("Link-p_nom|" ++ ch.name)
          = dch.efficiency * sigmaBattery ("Link-p_nom|" ++ dch.name)
      ∧ (dch.efficiency = 9/10 → sigmaBattery ("Link-p_nom|" ++ dch.name) = 100 →
          sigmaBattery ("Link-p_nom|" ++ ch.name) = 90) :=
  C6_battery_symmetry linksBattery sigmaBattery
    { name := "Link-charger_ratio|b1 battery charger"
      lhs := [((1 : ℚ), "Link-p_nom|b1 battery charger"),
              (-(9/10 : ℚ), "Link-p_nom|b1 battery discharger")]
      sense := Sense.eq
      rhs := 0 }
    (of_decide_eq_true (by with_unfolding_all rfl))
    (of_decide_eq_true (by with_unfolding_all rfl))

/-- The loop body of add_RPS_constraints registers a constraint with an
empty variable operand whenever the carrier-eligible subset of the region
generators is empty (the guard at line 394 tests region_gens, not the
eligible subset selected at line 392). -/
theorem rps_row_constraint_lhs_of_eligible_empty (n : Network) (row : RpsRow)
    (c : LinearConstraint) (h : rps_row_constraint n row = some c)
    (helig : (n.generators.filter (fun g =>
        ((get_region_buses n.buses ((pySplitComma row.region).map pyStrip)).map
          Bus.name).contains g.bus)).filter
        (fun g => ((pySplitComma row.carrier).map pyStrip).contains g.carrier) = []) :
    c.lhs = [] := by
  simp only [rps_row_constraint] at h
  by_cases hEmpty : (get_region_buses n.buses
      ((pySplitComma row.region).map pyStrip)).isEmpty = true
  · rw [if_pos hEmpty] at h
    exact absurd h (by simp)
  · rw [if_neg hEmpty] at h
    by_cases hG : (n.generators.filter (fun g =>
        ((get_region_buses n.buses ((pySplitComma row.region).map pyStrip)).map
          Bus.name).contains g.bus)).isEmpty = true
    · rw [if_pos hG] at h
      exact absurd h (by simp)
    · rw [if_neg hG] at h
      injection h with h
      subst h
      show List.flatMap _ _ = []
      rw [helig]
      rfl

/-- C7: the reserve-margin families never compile the claimed right-hand
side at all - the pandas query carrier in @conventional_carriers (lines 693
and 757) reads a name bound nowhere in the module, so add_SAFE_constraints
raises on every invocation and add_SAFER_constraints raises on the first
row whose region resolves, returning normally only when every row is
skipped beforehand. -/
theorem C7_undefined_conventional_carriers :
    add_SAFE_constraints netPolicy (1/10) = Except.error undefinedConventionalCarriers
      ∧ add_SAFER_constraints netPolicy [prmRowCA] [2030]
          = Except.error undefinedConventionalCarriers
      ∧ add_SAFER_constraints netPolicy [prmRowZZ] [2030] = Except.ok [] := by
  refine ⟨rfl, by decide, by decide⟩

/-- C9 counterexample: a portfolio-standard row whose region holds
generators but none of the eligible carrier - the very example the claim
gives of an empty matching set - still registers its constraint, and the
registered constraint carries a zero-sized variable operand. -/
theorem C9_counterexample_rps_empty_operand :
    ((netPolicy.generators.filter (fun g =>
        ((get_region_buses netPolicy.buses
          ((pySplitComma rpsRowNuclear.region).map pyStrip)).map
          Bus.name).contains g.bus)).filter
        (fun g => ((pySplitComma rpsRowNuclear.carrier).map pyStrip).contains g.carrier)) = []
      ∧ (add_RPS_constraints netPolicy [rpsRowNuclear] [2030]).map (fun c => c.lhs) = [[]] := by
  exact ⟨by decide, by decide⟩

/-- C9 (amended): the portfolio-standard family does skip a row whose
region resolves to no bus or holds no generator at all; but a row whose
region holds generators with none carrier-eligible still registers its
constraint, with a zero-sized variable operand, and the reserve-margin
family raises on the unbound conventional_carriers name before registering
anything - so a family finding no matching rows does not always return
quietly without registering. -/
theorem C9_empty_selection_amended (n : Network) (row : RpsRow) (phs : List Int) (m : ℚ) :
    (get_region_buses n.buses ((pySplitComma row.region).map pyStrip) = [] →
        add_RPS_constraints n [row] phs = []) ∧
    (n.generators.filter (fun g =>
        ((get_region_buses n.buses ((pySplitComma row.region).map pyStrip)).map
          Bus.name).contains g.bus) = [] →
        add_RPS_constraints n [row] phs = []) ∧
    ((n.generators.filter (fun g =>
        ((get_region_buses n.buses ((pySplitComma row.region).map pyStrip)).map
          Bus.name).contains g.bus)).filter
        (fun g => ((pySplitComma row.carrier).map pyStrip).contains g.carrier) = [] →
      ∀ c ∈ add_RPS_constraints n [row] phs, c.lhs = []) ∧
    add_SAFE_constraints n m = Except.error undefinedConventionalCarriers := by
  refine ⟨?_, ?_, ?_, rfl⟩
  · intro h
    rw [add_RPS_constraints]
    apply List.filterMap_eq_nil_iff.mpr
    intro r hr
    have hs : r = row := by
      have h1 := (List.mem_filter.mp hr).1
      simpa using (List.mem_filter.mp h1).1
    subst hs
    exact rps_row_constraint_none n r (Or.inl h)
  · intro h
    rw [add_RPS_constraints]
    apply List.filterMap_eq_nil_iff.mpr
    intro r hr
    have hs : r = row := by
      have h1 := (List.mem_filter.mp hr).1
      simpa using (List.mem_filter.mp h1).1
    subst hs
    exact rps_row_constraint_none n r (Or.inr h)
  · intro helig c hc
    rw [add_RPS_constraints, List.mem_filterMap] at hc
    obtain ⟨r, hr, hsome⟩ := hc
    have hs : r = row := by
      have h1 := (List.mem_filter.mp hr).1
      simpa using (List.mem_filter.mp h1).1
    subst hs
    exact rps_row_constraint_lhs_of_eligible_empty n r c hsome helig

/-- Closed witness for the amended C9 theorem: the unresolvable region row
registers nothing, while the carrier-ineligible region row still yields its
one constraint, whose operand is empty. -/
theorem C9_empty_selection_amended_witness :
    add_RPS_constraints netPolicy [rpsRowNowhere] [2030] = []
      ∧ (add_RPS_constraints netPolicy [rpsRowNuclear] [2030]).map (fun c => c.lhs) = [[]] := by
  constructor
  · exact (C9_empty_selection_amended netPolicy rpsRowNowhere [2030] 0).1 (by decide)
  · exact of_decide_eq_true (by with_unfolding_all rfl)

set_option maxRecDepth 8000 in
/-- C8: the horizon-scoping claim is met by the policy-table filters of the
other families, but add_sector_co2_constraints is broken on its skip path:
a policy table whose first state carries only unrealized years makes the
skip-path warning message read the loop local year before any assignment,
raising UnboundLocalError instead of silently skipping; the same table with
a realized year compiles its constraint normally. -/
theorem C8_unbound_year_at_failing_input :
    add_sector_co2_constraints netCo2 dfCo2Mismatch
        = Except.error "UnboundLocalError: year"
      ∧ add_sector_co2_constraints netCo2 dfCo2Good
        = Except.ok [LinearConstraint.mk "co2_limit-2030-CA"
            [((1 : ℚ), mkVar "Store-e" "CA pwr-co2" (Snapshot.mk 2030 0))]
            Sense.le (10 * 1000000)] := by
  exact ⟨by decide, by rfl⟩

/-- C10: when some link is a heating-mode heat pump of the given type but
the heating and cooling counts differ, the heat-pump coupling family fails
its assertion and registers nothing; with equal counts the capacity
equality is built. -/
theorem C10_heat_pump_assertion (links : List LinkRow) (hp_type : String)
    (htype : hp_type = "ashp" ∨ hp_type = "gshp") :
    (links.filter (fun l => pyEndsWith l.name hp_type) ≠ []
        → (links.filter (fun l => pyEndsWith l.name hp_type)).length
            ≠ (links.filter (fun l => pyEndsWith l.name (hp_type ++ "-cooling"))).length
        → add_hp_capacity_constraint links hp_type = Except.error "AssertionError") ∧
    ((links.filter (fun l => pyEndsWith l.name hp_type)).length
        = (links.filter (fun l => pyEndsWith l.name (hp_type ++ "-cooling"))).length
      → ∃ cs, add_hp_capacity_constraint links hp_type = Except.ok cs) := by
  have hguard : (hp_type != "ashp" && hp_type != "gshp") = false := by
    rcases htype with h | h <;> subst h <;> rfl
  constructor
  · intro hne hlen
    simp only [add_hp_capacity_constraint, hguard, Bool.false_eq_true, if_false]
    rw [if_neg, if_pos]
    · simp only [List.length_map]
      exact bne_iff_ne.mpr hlen
    · simp [List.isEmpty_iff, hne]
  · intro hlen
    by_cases hemp : ((links.filter (fun l => pyEndsWith l.name hp_type)).map
        (fun l => l.name)).isEmpty = true
    · exact ⟨[], by simp only [add_hp_capacity_constraint, hguard, Bool.false_eq_true,
        if_false, if_pos hemp]⟩
    · have hbne : (((links.filter (fun l => pyEndsWith l.name hp_type)).map
          (fun l => l.name)).length
            != ((links.filter (fun l => pyEndsWith l.name (hp_type ++ "-cooling"))).map
              (fun l => l.name)).length) = false := by
        simp only [List.length_map, bne_eq_false_iff_eq]
        exact hlen
      cases hval : add_hp_capacity_constraint links hp_type with
      | error e =>
        exfalso
        simp only [add_hp_capacity_constraint, hguard, Bool.false_eq_true, if_false] at hval
        rw [if_neg hemp] at hval
        rw [hbne] at hval
        simp at hval
      | ok cs => exact ⟨cs, rfl⟩

/-- Closed witness for C10: two heating units against one cooling unit trip
the assertion; the matched pair compiles. -/
theorem C10_heat_pump_assertion_witness :
    add_hp_capacity_constraint linksHpMismatch "ashp" = Except.error "AssertionError"
      ∧ ∃ cs, add_hp_capacity_constraint linksHpMatch "ashp" = Except.ok cs := by
  constructor
  · exact (C10_heat_pump_assertion linksHpMismatch "ashp" (Or.inl rfl)).1
      (by decide) (by decide)
  · exact (C10_heat_pump_assertion linksHpMatch "ashp" (Or.inl rfl)).2 (by decide)

end PypsaUsa
